import Mathlib

/-!
Verification of the ClinSample sample-size planning engine.

The numeric core of the repository is shallowly embedded here over the real
numbers.  The floating-point statistical primitives supplied by external
libraries (the standard-normal inverse CDF used through scipy, the central-F
quantile and the noncentral-F CDF) are modelled as explicit function
parameters; all arithmetic that the repository itself performs (sums,
products, quotients, square roots, logarithms, absolute values, ceilings,
comparisons) is embedded exactly.  Fallible code paths are modelled with
`Except String`, mirroring the raised `ValueError` messages.
-/

namespace ClinSample

/-- Embeds `utils/stat_utils.py` `z_alpha`: the Z critical value for a given
alpha, computed from the abstract standard-normal inverse CDF `ppf`. -/
noncomputable def z_alpha (ppf : ℝ → ℝ) (alpha : ℝ) (two_sided : Bool) : ℝ :=
  if two_sided then ppf (1 - alpha / 2) else ppf (1 - alpha)

/-- Embeds `utils/stat_utils.py` `z_beta`: the Z value for the desired power. -/
noncomputable def z_beta (ppf : ℝ → ℝ) (power : ℝ) : ℝ :=
  ppf power

/-- Embeds `utils/stat_utils.py` `ceil_int`: always round up to next integer. -/
noncomputable def ceil_int (x : ℝ) : ℤ :=
  Int.ceil x

/-- Embeds `utils/stat_utils.py` `adjust_for_dropout`: a negative rate is
first clamped to zero, a rate at or above 0.95 raises, otherwise the sample
size is inflated by `1 / (1 - rate)` and ceiled. -/
noncomputable def adjust_for_dropout (n : ℤ) (dropout_rate : ℝ) : Except String ℤ :=
  let d := if dropout_rate < 0 then 0 else dropout_rate
  if d ≥ 0.95 then Except.error ("Dropout rate too high.")
  else Except.ok (ceil_int ((n : ℝ) / (1 - d)))

/-- Embeds `utils/stat_utils.py` `validate_proportion`. -/
noncomputable def validate_proportion (p : ℝ) : Except String ℝ :=
  if p ≤ 0 ∨ p ≥ 1 then Except.error ("Proportion must be between 0 and 1 (exclusive).")
  else Except.ok p

/-- Embeds `utils/stat_utils.py` `validate_positive`. -/
noncomputable def validate_positive (value : ℝ) (name : String) : Except String ℝ :=
  if value ≤ 0 then Except.error (name ++ " must be positive.")
  else Except.ok value

/- Helper lemmas about the utilities, shared by several developments below. -/

lemma validate_proportion_ok {p : ℝ} (h0 : 0 < p) (h1 : p < 1) :
    validate_proportion p = Except.ok p := by
  unfold validate_proportion
  rw [if_neg]
  push_neg
  exact ⟨h0, h1⟩

lemma validate_positive_ok {x : ℝ} (name : String) (h : 0 < x) :
    validate_positive x name = Except.ok x := by
  unfold validate_positive
  rw [if_neg (not_le.mpr h)]

lemma adjust_for_dropout_ok {d : ℝ} (n : ℤ) (h0 : 0 ≤ d) (h1 : d < 0.95) :
    adjust_for_dropout n d = Except.ok (ceil_int ((n : ℝ) / (1 - d))) := by
  unfold adjust_for_dropout
  rw [if_neg (not_lt.mpr h0), if_neg (not_le.mpr h1)]

lemma le_ceil_div_one_sub {d : ℝ} (n : ℤ) (hn : 0 ≤ n) (h0 : 0 ≤ d) (h1 : d < 0.95) :
    n ≤ ceil_int ((n : ℝ) / (1 - d)) := by
  have hpos : (0 : ℝ) < 1 - d := by linarith
  have hle : (n : ℝ) ≤ (n : ℝ) / (1 - d) := by
    rw [le_div_iff₀ hpos]
    have hn' : (0 : ℝ) ≤ (n : ℝ) := by exact_mod_cast hn
    nlinarith
  calc n = Int.ceil ((n : ℝ)) := (Int.ceil_intCast n).symm
    _ ≤ ceil_int ((n : ℝ) / (1 - d)) := Int.ceil_le_ceil hle

/-- Claim C6: for every positive integer `n`, the dropout adjuster fails with the
dropout-too-high error when `d ≥ 0.95`; for every `d ∈ [0, 0.95)` it returns
`⌈n / (1 - d)⌉`, which is at least `n`; and at `d = 0` it returns exactly `n`. -/
theorem adjust_for_dropout_spec (n : ℤ) (d : ℝ) (hn : 0 < n) :
    ((0.95 : ℝ) ≤ d → adjust_for_dropout n d = Except.error ("Dropout rate too high."))
    ∧ (0 ≤ d → d < 0.95 →
        adjust_for_dropout n d = Except.ok (ceil_int ((n : ℝ) / (1 - d)))
        ∧ n ≤ ceil_int ((n : ℝ) / (1 - d)))
    ∧ adjust_for_dropout n 0 = Except.ok n := by
  refine ⟨?_, ?_, ?_⟩
  · intro hd
    unfold adjust_for_dropout
    have : ¬ d < 0 := by linarith
    rw [if_neg this, if_pos hd]
  · intro h0 h1
    exact ⟨adjust_for_dropout_ok n h0 h1, le_ceil_div_one_sub n hn.le h0 h1⟩
  · have h := adjust_for_dropout_ok n (le_refl (0 : ℝ)) (by norm_num)
    rw [h]
    congr 1
    unfold ceil_int
    rw [sub_zero, div_one, Int.ceil_intCast]

/-- Witness for C6 at the spec scenario `n = 18`, `d = 0.10`. -/
theorem adjust_for_dropout_spec_witness :
    (((0.95 : ℝ) ≤ (1 / 10 : ℝ) →
        adjust_for_dropout 18 (1 / 10) = Except.error ("Dropout rate too high."))
      ∧ (0 ≤ (1 / 10 : ℝ) → (1 / 10 : ℝ) < 0.95 →
          adjust_for_dropout 18 (1 / 10) = Except.ok (ceil_int ((18 : ℝ) / (1 - 1 / 10)))
          ∧ (18 : ℤ) ≤ ceil_int ((18 : ℝ) / (1 - 1 / 10)))
      ∧ adjust_for_dropout 18 0 = Except.ok 18) :=
  adjust_for_dropout_spec 18 (1 / 10) (by norm_num)

/-- Claim C10: for every integer `n` and every negative dropout rate, the
adjuster does not fail: the negative rate is silently clamped to zero and `n`
is returned unchanged. -/
theorem adjust_for_dropout_negative_clamps (n : ℤ) (d : ℝ) (hd : d < 0) :
    adjust_for_dropout n d = Except.ok n := by
  unfold adjust_for_dropout
  rw [if_pos hd]
  norm_num
  unfold ceil_int
  rw [Int.ceil_intCast]

/-- Witness for C10 at `n = 7`, `d = -1/2`. -/
theorem adjust_for_dropout_negative_clamps_witness :
    adjust_for_dropout 7 (-1 / 2) = Except.ok 7 :=
  adjust_for_dropout_negative_clamps 7 (-1 / 2) (by norm_num)

/-!
Section: the noncentral-F power search

`app/study_pages/linear_regression_page.py` `_n_for_multiple_regression_f2`
drives the two statistical primitives `stats.f.ppf` (central-F quantile,
modelled by the parameter `fppf`, taking the probability and the two degrees
of freedom) and `stats.ncf.cdf` (noncentral-F CDF, modelled by the parameter
`ncfcdf`, taking the evaluation point, the degrees of freedom and the
noncentrality).  The loop body computes, for denominator df `v`,
`1 - ncf.cdf(f.ppf(1 - alpha, u, v), u, v, f2 * N)` with `N = u + v + 1`.
-/

/-- Achieved power at denominator df `v` (with `u`, `alpha`, `f2` fixed), as
computed inside the loop of `_n_for_multiple_regression_f2`. -/
noncomputable def power_at (fppf : ℝ → ℕ → ℕ → ℝ) (ncfcdf : ℝ → ℕ → ℕ → ℝ → ℝ)
    (alpha f2 : ℝ) (u v : ℕ) : ℝ :=
  1 - ncfcdf (fppf (1 - alpha) u v) u v (f2 * ((u : ℝ) + (v : ℝ) + 1))

/-- Embeds `_n_for_multiple_regression_f2` from
`app/study_pages/linear_regression_page.py`: after validating `u ≥ 1` and
`f2 > 0`, iterate `v` over `range(1, 200000)` and return `N = u + v + 1` at
the first `v` whose achieved power reaches the target; if the range is
exhausted, raise.  (The initial placeholder `fcrit` computed before the loop
is dead code: the loop recomputes `fcrit` before using it on every probe.) -/
noncomputable def n_for_multiple_regression_f2 (fppf : ℝ → ℕ → ℕ → ℝ)
    (ncfcdf : ℝ → ℕ → ℕ → ℝ → ℝ) (alpha power f2 : ℝ) (u : ℕ) : Except String ℕ :=
  if u < 1 then Except.error ("Number of predictors must be >= 1.")
  else if f2 ≤ 0 then Except.error ("f² must be > 0.")
  else
    match (List.range' 1 199999).find?
        (fun v => decide (power ≤ power_at fppf ncfcdf alpha f2 u v)) with
    | some v => Except.ok (u + v + 1)
    | none => Except.error ("Failed to find N within search range. Try larger f² or lower power.")

/-- A successful `find?` over `List.range'` returns the smallest qualifying
index: the predicate holds there and fails strictly before it. -/
lemma find?_range'_eq_some_iff (p : ℕ → Bool) :
    ∀ (n s v : ℕ), (List.range' s n).find? p = some v ↔
      (s ≤ v ∧ v < s + n ∧ p v = true ∧ ∀ w, s ≤ w → w < v → p w = false) := by
  intro n
  induction n with
  | zero =>
    intro s v
    simp only [List.range'_zero, List.find?_nil]
    constructor
    · intro h
      cases h
    · rintro ⟨h1, h2, -, -⟩
      omega
  | succ m ih =>
    intro s v
    rw [List.range'_succ]
    by_cases hp : p s = true
    · rw [List.find?_cons_of_pos _ hp]
      constructor
      · intro h
        have hv : s = v := by injection h
        subst hv
        exact ⟨le_refl _, by omega, hp, fun w hw1 hw2 => by omega⟩
      · rintro ⟨h1, -, -, h4⟩
        rcases Nat.lt_or_ge s v with hlt | hge
        · have hfa := h4 s (le_refl _) hlt
          rw [hp] at hfa
          exact absurd hfa (by simp)
        · have hv : v = s := by omega
          rw [hv]
    · rw [List.find?_cons_of_neg _ hp, ih (s + 1) v]
      constructor
      · rintro ⟨h1, h2, h3, h4⟩
        refine ⟨by omega, by omega, h3, ?_⟩
        intro w hw1 hw2
        rcases Nat.eq_or_lt_of_le hw1 with heq | hlt
        · rw [← heq]
          exact Bool.eq_false_iff.mpr hp
        · exact h4 w (by omega) hw2
      · rintro ⟨h1, h2, h3, h4⟩
        have hne : v ≠ s := by
          intro he
          rw [he] at h3
          exact hp h3
        exact ⟨by omega, by omega, h3, fun w hw1 hw2 => h4 w (by omega) hw2⟩

/-- Claim C1: whenever the noncentral-F search returns a total `N`, the achieved
power at `N` (numerator df `u`, denominator df `N - u - 1`, noncentrality
`f2 · N`, evaluated at the central-F critical value for `1 - alpha`) is at
least the target power, and the achieved power at `N - 1` is strictly below
the target whenever `N - 1` still leaves denominator df at least 1. -/
theorem ncf_search_minimal (fppf : ℝ → ℕ → ℕ → ℝ) (ncfcdf : ℝ → ℕ → ℕ → ℝ → ℝ)
    (alpha power f2 : ℝ) (u N : ℕ)
    (h : n_for_multiple_regression_f2 fppf ncfcdf alpha power f2 u = Except.ok N) :
    power ≤ power_at fppf ncfcdf alpha f2 u (N - u - 1)
    ∧ (1 ≤ N - u - 2 → power_at fppf ncfcdf alpha f2 u (N - u - 2) < power) := by
  unfold n_for_multiple_regression_f2 at h
  by_cases hu : u < 1
  · rw [if_pos hu] at h
    cases h
  rw [if_neg hu] at h
  by_cases hf : f2 ≤ 0
  · rw [if_pos hf] at h
    cases h
  rw [if_neg hf] at h
  cases hfind : (List.range' 1 199999).find?
      (fun v => decide (power ≤ power_at fppf ncfcdf alpha f2 u v)) with
  | none =>
    rw [hfind] at h
    cases h
  | some v =>
    rw [hfind] at h
    injection h with hN
    obtain ⟨hv1, hv2, hv3, hv4⟩ := (find?_range'_eq_some_iff _ _ _ _).mp hfind
    have hNv : N - u - 1 = v := by omega
    have hNv2 : N - u - 2 = v - 1 := by omega
    constructor
    · rw [hNv]
      exact of_decide_eq_true hv3
    · intro hge
      rw [hNv2] at hge ⊢
      have hfa := hv4 (v - 1) hge (by omega)
      exact lt_of_not_le (of_decide_eq_false hfa)

/-- Witness for C1: with constant primitives the achieved power is 1 at every
probe, so the search returns `N = 3` for `u = 1` and the claim holds there. -/
theorem ncf_search_minimal_witness :
    (1 / 2 : ℝ) ≤ power_at (fun _ _ _ => 0) (fun _ _ _ _ => 0) (1 / 20) 1 1 (3 - 1 - 1)
    ∧ (1 ≤ 3 - 1 - 2 →
        power_at (fun _ _ _ => 0) (fun _ _ _ _ => 0) (1 / 20) 1 1 (3 - 1 - 2) < (1 / 2 : ℝ)) :=
  ncf_search_minimal (fun _ _ _ => 0) (fun _ _ _ _ => 0) (1 / 20) (1 / 2) 1 1 3 (by
    unfold n_for_multiple_regression_f2
    rw [if_neg (by norm_num : ¬ (1 : ℕ) < 1), if_neg (by norm_num : ¬ (1 : ℝ) ≤ 0)]
    rw [show (199999 : ℕ) = 199998 + 1 from rfl, List.range'_succ,
      List.find?_cons_of_pos _ (by rw [decide_eq_true_eq]; unfold power_at; norm_num)])

/-- Claim C2 (amended): the search is a bounded linear scan, not a
bracket-and-bisect: it returns `N = u + v + 1` exactly when `v` is the first
denominator df in `1, 2, …, 199999` whose achieved power reaches the target
(equivalently, the smallest qualifying `v` within the scanned range). -/
theorem ncf_search_is_linear_scan (fppf : ℝ → ℕ → ℕ → ℝ) (ncfcdf : ℝ → ℕ → ℕ → ℝ → ℝ)
    (alpha power f2 : ℝ) (u v : ℕ) (hu : 1 ≤ u) (hf : 0 < f2) :
    n_for_multiple_regression_f2 fppf ncfcdf alpha power f2 u = Except.ok (u + v + 1)
    ↔ (1 ≤ v ∧ v ≤ 199999 ∧ power ≤ power_at fppf ncfcdf alpha f2 u v
        ∧ ∀ w, 1 ≤ w → w < v → power_at fppf ncfcdf alpha f2 u w < power) := by
  unfold n_for_multiple_regression_f2
  rw [if_neg (by omega : ¬ u < 1), if_neg (not_le.mpr hf)]
  constructor
  · intro h
    cases hfind : (List.range' 1 199999).find?
        (fun w => decide (power ≤ power_at fppf ncfcdf alpha f2 u w)) with
    | none =>
      rw [hfind] at h
      cases h
    | some w =>
      rw [hfind] at h
      injection h with hN
      have hwv : w = v := by omega
      subst hwv
      obtain ⟨h1, h2, h3, h4⟩ := (find?_range'_eq_some_iff _ _ _ _).mp hfind
      exact ⟨h1, by omega, of_decide_eq_true h3,
        fun x hx1 hx2 => lt_of_not_le (of_decide_eq_false (h4 x hx1 hx2))⟩
  · rintro ⟨h1, h2, h3, h4⟩
    have hfind : (List.range' 1 199999).find?
        (fun w => decide (power ≤ power_at fppf ncfcdf alpha f2 u w)) = some v :=
      (find?_range'_eq_some_iff _ _ _ _).mpr
        ⟨h1, by omega, decide_eq_true h3,
          fun w hw1 hw2 => decide_eq_false (not_le.mpr (h4 w hw1 hw2))⟩
    rw [hfind]

/-- Witness for C2 (amended) at constant primitives: the first probe already
meets the target, so the search returns `N = 1 + 1 + 1`. -/
theorem ncf_search_is_linear_scan_witness :
    n_for_multiple_regression_f2 (fun _ _ _ => 0) (fun _ _ _ _ => 0) (1 / 20) (1 / 2) 1 1
      = Except.ok (1 + 1 + 1) :=
  (ncf_search_is_linear_scan (fun _ _ _ => 0) (fun _ _ _ _ => 0) (1 / 20) (1 / 2) 1 1 1
      (le_refl 1) (by norm_num)).mpr
    ⟨le_refl 1, by norm_num, by unfold power_at; norm_num, fun w hw1 hw2 => by omega⟩

/-- Claim C3: the search probes at most the 199999 denominator-df values
`1..199999`; it either returns `N = u + v + 1` with `v` inside that cap or
fails with the convergence error instead of looping. -/
theorem ncf_search_bounded (fppf : ℝ → ℕ → ℕ → ℝ) (ncfcdf : ℝ → ℕ → ℕ → ℝ → ℝ)
    (alpha power f2 : ℝ) (u : ℕ) (hu : 1 ≤ u) (hf : 0 < f2) :
    (∃ v, 1 ≤ v ∧ v ≤ 199999 ∧
        n_for_multiple_regression_f2 fppf ncfcdf alpha power f2 u = Except.ok (u + v + 1))
    ∨ n_for_multiple_regression_f2 fppf ncfcdf alpha power f2 u
        = Except.error ("Failed to find N within search range. Try larger f² or lower power.") := by
  unfold n_for_multiple_regression_f2
  rw [if_neg (by omega : ¬ u < 1), if_neg (not_le.mpr hf)]
  cases hfind : (List.range' 1 199999).find?
      (fun w => decide (power ≤ power_at fppf ncfcdf alpha f2 u w)) with
  | none =>
    right
    rfl
  | some v =>
    left
    obtain ⟨h1, h2, -, -⟩ := (find?_range'_eq_some_iff _ _ _ _).mp hfind
    exact ⟨v, h1, by omega, rfl⟩

/-- Witness for C3 with primitives whose achieved power is always 0: no probe
within the cap qualifies, so the search must take the error branch of the
disjunction. -/
theorem ncf_search_bounded_witness :
    (∃ v, 1 ≤ v ∧ v ≤ 199999 ∧
        n_for_multiple_regression_f2 (fun _ _ _ => 0) (fun _ _ _ _ => 1) (1 / 20) (4 / 5) (3 / 20) 1
          = Except.ok (1 + v + 1))
    ∨ n_for_multiple_regression_f2 (fun _ _ _ => 0) (fun _ _ _ _ => 1) (1 / 20) (4 / 5) (3 / 20) 1
        = Except.error ("Failed to find N within search range. Try larger f² or lower power.") :=
  ncf_search_bounded (fun _ _ _ => 0) (fun _ _ _ _ => 1) (1 / 20) (4 / 5) (3 / 20) 1
    (le_refl 1) (by norm_num)

/-- Modelled from the spec: the doubling phase of the §4.4 bracket-and-bisect
search — double `v` until the achieved power meets the target, within the
iteration cap supplied as fuel. -/
def double_up (meets : ℕ → Bool) : ℕ → ℕ → Option ℕ
  | 0, _ => none
  | fuel + 1, v => if meets v then some v else double_up meets fuel (2 * v)

/-- Modelled from the spec: the bisection phase of the §4.4 search —
binary-search the bracket `(lo, hi]` (power below target at `lo`, at or above
target at `hi`) for the smallest integer meeting the target. -/
def bisect_down (meets : ℕ → Bool) : ℕ → ℕ → ℕ → ℕ
  | 0, _, hi => hi
  | fuel + 1, lo, hi =>
    if hi - lo ≤ 1 then hi
    else
      let mid := (lo + hi) / 2
      if meets mid then bisect_down meets fuel lo mid
      else bisect_down meets fuel mid hi

/-- Modelled from the spec: the §4.4 bracket-and-bisect noncentral-F search,
which the repository's code does not contain — start `v` at 1, double until
the achieved power meets the target (the last failing probe `hi / 2` bounds
the bracket below), then binary-search the bracket for the smallest
qualifying `v`, failing with a convergence error when the doubling fuel (well
inside the 10,000-probe budget) is exhausted. -/
noncomputable def bracket_bisect_search (fppf : ℝ → ℕ → ℕ → ℝ)
    (ncfcdf : ℝ → ℕ → ℕ → ℝ → ℝ) (alpha power f2 : ℝ) (u : ℕ) : Except String ℕ :=
  match double_up (fun v => decide (power ≤ power_at fppf ncfcdf alpha f2 u v)) 34 1 with
  | none => Except.error ("ConvergenceError")
  | some hi =>
      Except.ok (u + bisect_down
        (fun v => decide (power ≤ power_at fppf ncfcdf alpha f2 u v)) 34 (hi / 2) hi + 1)

/-- A noncentral-F CDF instance whose induced achieved power meets a
half target exactly at denominator dfs `3` and `10, 11, …`. -/
noncomputable def ncf_cdf_gap : ℝ → ℕ → ℕ → ℝ → ℝ :=
  fun _ _ v _ => if v = 3 ∨ 10 ≤ v then 0 else 1

lemma ncf_gap_meets (v : ℕ) :
    decide ((1 / 2 : ℝ) ≤ power_at (fun _ _ _ => 0) ncf_cdf_gap (1 / 20) (15 / 100) 1 v)
      = decide (v = 3 ∨ 10 ≤ v) := by
  simp only [power_at, ncf_cdf_gap]
  by_cases h : v = 3 ∨ 10 ≤ v
  · rw [decide_eq_true h, decide_eq_true_eq, if_pos h]
    norm_num
  · rw [decide_eq_false h, decide_eq_false_iff_not, if_neg h]
    norm_num

/-- Claim C2 (counterexample): at explicit concrete distribution primitives the
code's search and the specification's bracket-and-bisect search return
different results (`N = 5` versus `N = 12`), so the code's search does not
proceed by bracket-and-bisect. -/
theorem ncf_search_not_bracket_bisect :
    n_for_multiple_regression_f2 (fun _ _ _ => 0) ncf_cdf_gap (1 / 20) (1 / 2) (15 / 100) 1
      = Except.ok 5
    ∧ bracket_bisect_search (fun _ _ _ => 0) ncf_cdf_gap (1 / 20) (1 / 2) (15 / 100) 1
      = Except.ok 12
    ∧ n_for_multiple_regression_f2 (fun _ _ _ => 0) ncf_cdf_gap (1 / 20) (1 / 2) (15 / 100) 1
      ≠ bracket_bisect_search (fun _ _ _ => 0) ncf_cdf_gap (1 / 20) (1 / 2) (15 / 100) 1 := by
  have hfun : (fun v => decide ((1 / 2 : ℝ) ≤
        power_at (fun _ _ _ => 0) ncf_cdf_gap (1 / 20) (15 / 100) 1 v))
      = fun v => decide (v = 3 ∨ 10 ≤ v) :=
    funext (fun v => ncf_gap_meets v)
  have h1 : n_for_multiple_regression_f2 (fun _ _ _ => 0) ncf_cdf_gap (1 / 20) (1 / 2) (15 / 100) 1
      = Except.ok 5 := by
    unfold n_for_multiple_regression_f2
    rw [if_neg (by norm_num : ¬ (1 : ℕ) < 1), if_neg (by norm_num : ¬ (15 / 100 : ℝ) ≤ 0), hfun]
    have hfind : (List.range' 1 199999).find? (fun v => decide (v = 3 ∨ 10 ≤ v)) = some 3 :=
      (find?_range'_eq_some_iff _ _ _ _).mpr
        ⟨by omega, by omega, by decide, by
          intro w hw1 hw2
          interval_cases w <;> decide⟩
    rw [hfind]
  have h2 : bracket_bisect_search (fun _ _ _ => 0) ncf_cdf_gap (1 / 20) (1 / 2) (15 / 100) 1
      = Except.ok 12 := by
    unfold bracket_bisect_search
    rw [hfun]
    rfl
  exact ⟨h1, h2, by rw [h1, h2]; simp⟩

/-!
Section: two proportions and the cohort risk-ratio reduction
-/

/-- Result shape of `calculators/binary/two_proportions.py`. -/
structure TwoPropResult where
  n_group1 : ℤ
  n_group2 : ℤ
  n_total : ℤ
  n1_before_dropout : ℤ
  n2_before_dropout : ℤ
  formula : String
  assumptions : List String

/-- The raw group-1 size of `calculate_two_proportions`: pooled proportion
under H0, null and alternative variance terms, squared Z combination over the
squared difference. -/
noncomputable def two_prop_n1_raw (Z_alpha Z_beta p1 p2 r : ℝ) : ℝ :=
  let p_bar := (p1 + r * p2) / (1 + r)
  let var_null := p_bar * (1 - p_bar) * (1 + 1 / r)
  let var_alt := p1 * (1 - p1) + p2 * (1 - p2) / r
  (Z_alpha * Real.sqrt var_null + Z_beta * Real.sqrt var_alt) ^ 2 / |p1 - p2| ^ 2

/-- Embeds `calculators/binary/two_proportions.py`
`calculate_two_proportions`: validate both proportions and the allocation
ratio, reject equal proportions, ceil the raw group-1 size, ceil `r` times
the *ceiled* group-1 size for group 2, then dropout-adjust each group. -/
noncomputable def calculate_two_proportions (ppf : ℝ → ℝ)
    (alpha power p1 p2 allocation_ratio : ℝ) (two_sided : Bool) (dropout_rate : ℝ) :
    Except String TwoPropResult :=
  match validate_proportion p1 with
  | Except.error e => Except.error e
  | Except.ok _ =>
  match validate_proportion p2 with
  | Except.error e => Except.error e
  | Except.ok _ =>
  match validate_positive allocation_ratio ("Allocation ratio") with
  | Except.error e => Except.error e
  | Except.ok _ =>
  if |p1 - p2| = 0 then Except.error ("Proportions must differ to compute sample size.")
  else
    let n1 := ceil_int (two_prop_n1_raw (z_alpha ppf alpha two_sided) (z_beta ppf power)
      p1 p2 allocation_ratio)
    let n2 := ceil_int (allocation_ratio * (n1 : ℝ))
    match adjust_for_dropout n1 dropout_rate with
    | Except.error e => Except.error e
    | Except.ok n1_adj =>
    match adjust_for_dropout n2 dropout_rate with
    | Except.error e => Except.error e
    | Except.ok n2_adj =>
      Except.ok {
        n_group1 := n1_adj
        n_group2 := n2_adj
        n_total := n1_adj + n2_adj
        n1_before_dropout := n1
        n2_before_dropout := n2
        formula := "Two-proportion Z-test (pooled variance approach)"
        assumptions := ["Independent groups", "Binary outcome",
          "Normal approximation valid", "Adequate expected cell counts"] }

/-- Embeds `calculators/binary/cohort_rr.py` `calculate_cohort_rr`:
validate the baseline risk and the two ratios, derive `p1 = p0 · RR`
(rejecting `p1 ≥ 1`), delegate to the two-proportions calculator with
`(p1, p0, allocation ratio)`, then relabel the formula and append an
assumption. -/
noncomputable def calculate_cohort_rr (ppf : ℝ → ℝ)
    (alpha power baseline_risk risk_ratio allocation_ratio : ℝ)
    (two_sided : Bool) (dropout_rate : ℝ) : Except String TwoPropResult :=
  match validate_proportion baseline_risk with
  | Except.error e => Except.error e
  | Except.ok p0 =>
  match validate_positive risk_ratio ("Risk ratio") with
  | Except.error e => Except.error e
  | Except.ok _ =>
  match validate_positive allocation_ratio ("Allocation ratio") with
  | Except.error e => Except.error e
  | Except.ok _ =>
  if p0 * risk_ratio ≥ 1 then Except.error ("Risk ratio too large for given baseline risk.")
  else
    match calculate_two_proportions ppf alpha power (p0 * risk_ratio) p0
        allocation_ratio two_sided dropout_rate with
    | Except.error e => Except.error e
    | Except.ok result =>
      Except.ok { result with
        formula := "Derived p1 = RR × p0 and applied two-proportion normal approximation"
        assumptions := result.assumptions ++ ["Cohort or randomized controlled design"] }

/-- The numeric payload of a two-proportions result: both group sizes, the
total, and both before-dropout sizes. -/
def two_prop_sizes (res : TwoPropResult) : ℤ × ℤ × ℤ × ℤ × ℤ :=
  (res.n_group1, res.n_group2, res.n_total, res.n1_before_dropout, res.n2_before_dropout)

/-- Exchange the two groups of a two-proportions result. -/
def swap_groups (res : TwoPropResult) : TwoPropResult :=
  { res with
    n_group1 := res.n_group2
    n_group2 := res.n_group1
    n1_before_dropout := res.n2_before_dropout
    n2_before_dropout := res.n1_before_dropout }

lemma validate_proportion_err {p : ℝ} (h : p ≤ 0 ∨ p ≥ 1) :
    validate_proportion p = Except.error ("Proportion must be between 0 and 1 (exclusive).") := by
  unfold validate_proportion
  rw [if_pos h]

/-- The success path of the two-proportions calculator, written out. -/
lemma two_prop_ok (ppf : ℝ → ℝ) (alpha power : ℝ) (ts : Bool) {p1 p2 r dr : ℝ}
    (h1a : 0 < p1) (h1b : p1 < 1) (h2a : 0 < p2) (h2b : p2 < 1) (hr : 0 < r)
    (hne : p1 ≠ p2) (hd0 : 0 ≤ dr) (hd1 : dr < 0.95) :
    calculate_two_proportions ppf alpha power p1 p2 r ts dr =
      Except.ok {
        n_group1 := ceil_int ((ceil_int (two_prop_n1_raw (z_alpha ppf alpha ts)
          (z_beta ppf power) p1 p2 r) : ℝ) / (1 - dr))
        n_group2 := ceil_int ((ceil_int (r * (ceil_int (two_prop_n1_raw (z_alpha ppf alpha ts)
          (z_beta ppf power) p1 p2 r) : ℝ)) : ℝ) / (1 - dr))
        n_total := ceil_int ((ceil_int (two_prop_n1_raw (z_alpha ppf alpha ts)
            (z_beta ppf power) p1 p2 r) : ℝ) / (1 - dr))
          + ceil_int ((ceil_int (r * (ceil_int (two_prop_n1_raw (z_alpha ppf alpha ts)
            (z_beta ppf power) p1 p2 r) : ℝ)) : ℝ) / (1 - dr))
        n1_before_dropout := ceil_int (two_prop_n1_raw (z_alpha ppf alpha ts)
          (z_beta ppf power) p1 p2 r)
        n2_before_dropout := ceil_int (r * (ceil_int (two_prop_n1_raw (z_alpha ppf alpha ts)
          (z_beta ppf power) p1 p2 r) : ℝ))
        formula := "Two-proportion Z-test (pooled variance approach)"
        assumptions := ["Independent groups", "Binary outcome",
          "Normal approximation valid", "Adequate expected cell counts"] } := by
  have hd : ¬ |p1 - p2| = 0 := by
    rw [abs_eq_zero, sub_eq_zero]
    exact hne
  simp only [calculate_two_proportions, validate_proportion_ok h1a h1b,
    validate_proportion_ok h2a h2b, validate_positive_ok _ hr, if_neg hd,
    adjust_for_dropout_ok _ hd0 hd1]

/-- Claim C5: the cohort risk-ratio design computes `p1 = p0 · RR`, fails when
`p1 ≥ 1`, and otherwise delegates to the two-proportions calculator with
`(p1, p0, allocation ratio)`: the returned group and total sample sizes are
exactly those of the direct two-proportions call. -/
theorem cohort_rr_delegates (ppf : ℝ → ℝ) (alpha power p0 RR r dr : ℝ) (ts : Bool)
    (h0a : 0 < p0) (h0b : p0 < 1) (hRR : 0 < RR) (hr : 0 < r) :
    ((1 : ℝ) ≤ p0 * RR →
      calculate_cohort_rr ppf alpha power p0 RR r ts dr
        = Except.error ("Risk ratio too large for given baseline risk."))
    ∧ (p0 * RR < 1 →
      Except.map two_prop_sizes (calculate_cohort_rr ppf alpha power p0 RR r ts dr)
        = Except.map two_prop_sizes
            (calculate_two_proportions ppf alpha power (p0 * RR) p0 r ts dr)) := by
  constructor
  · intro hge
    simp only [calculate_cohort_rr, validate_proportion_ok h0a h0b,
      validate_positive_ok _ hRR, validate_positive_ok _ hr]
    rw [if_pos hge]
  · intro hlt
    simp only [calculate_cohort_rr, validate_proportion_ok h0a h0b,
      validate_positive_ok _ hRR, validate_positive_ok _ hr]
    rw [if_neg (not_le.mpr hlt)]
    cases calculate_two_proportions ppf alpha power (p0 * RR) p0 r ts dr with
    | error e => rfl
    | ok res => rfl

/-- Witness for C5 at the spec scenario `p0 = 0.20`, `RR = 1.5`, ratio 1
(so `p1 = 0.30`): the cohort calculator returns exactly the sizes of the
direct two-proportions call with `(0.30, 0.20, 1)`. -/
theorem cohort_rr_delegates_witness :
    (((1 : ℝ) ≤ 1 / 5 * (3 / 2) →
      calculate_cohort_rr (fun _ => 1) (1 / 20) (4 / 5) (1 / 5) (3 / 2) 1 true 0
        = Except.error ("Risk ratio too large for given baseline risk."))
    ∧ (1 / 5 * (3 / 2 : ℝ) < 1 →
      Except.map two_prop_sizes
          (calculate_cohort_rr (fun _ => 1) (1 / 20) (4 / 5) (1 / 5) (3 / 2) 1 true 0)
        = Except.map two_prop_sizes
            (calculate_two_proportions (fun _ => 1) (1 / 20) (4 / 5) (1 / 5 * (3 / 2)) (1 / 5)
              1 true 0))) :=
  cohort_rr_delegates (fun _ => 1) (1 / 20) (4 / 5) (1 / 5) (3 / 2) 1 0 true
    (by norm_num) (by norm_num) (by norm_num) (by norm_num)

lemma sqrt_scale {r : ℝ} (hr : 0 ≤ r) (x y za zb d : ℝ) :
    (za * Real.sqrt (r * x) + zb * Real.sqrt (r * y)) ^ 2 / d
      = r * ((za * Real.sqrt x + zb * Real.sqrt y) ^ 2 / d) := by
  rw [Real.sqrt_mul hr, Real.sqrt_mul hr]
  have h2 : (za * (Real.sqrt r * Real.sqrt x) + zb * (Real.sqrt r * Real.sqrt y)) ^ 2
      = Real.sqrt r ^ 2 * (za * Real.sqrt x + zb * Real.sqrt y) ^ 2 := by ring
  rw [h2, Real.sq_sqrt hr, mul_div_assoc]

lemma two_prop_n1_raw_swap_one (za zb p1 p2 : ℝ) :
    two_prop_n1_raw za zb p2 p1 1 = two_prop_n1_raw za zb p1 p2 1 := by
  simp only [two_prop_n1_raw]
  rw [abs_sub_comm p2 p1]
  rw [show (p2 + 1 * p1) / (1 + 1) = (p1 + 1 * p2) / (1 + 1) by ring]
  rw [show p2 * (1 - p2) + p1 * (1 - p1) / 1 = p1 * (1 - p1) + p2 * (1 - p2) / 1 by ring]

lemma ceil_one_mul (n : ℤ) : ceil_int (1 * (n : ℝ)) = n := by
  unfold ceil_int
  rw [one_mul, Int.ceil_intCast]

/-- Claim C4 (amended): swapping `(p1, p2, r)` to `(p2, p1, 1/r)` scales the raw
(real-valued, pre-ceiling) group-1 size by exactly `r`, so the spec's
symmetry holds at the formula level; and for `r = 1` the returned integer
results are exactly the originals with the two groups exchanged.  For
`r ≠ 1` the integer outputs can differ, because the code ceils the group-1
size before multiplying by `r` (see the counterexample). -/
theorem two_prop_swap_symmetry (ppf : ℝ → ℝ) (alpha power p1 p2 dr za zb r : ℝ) (ts : Bool)
    (hr : 0 < r) :
    two_prop_n1_raw za zb p2 p1 (1 / r) = r * two_prop_n1_raw za zb p1 p2 r
    ∧ calculate_two_proportions ppf alpha power p2 p1 1 ts dr
        = Except.map swap_groups (calculate_two_proportions ppf alpha power p1 p2 1 ts dr) := by
  constructor
  · have hr' : r ≠ 0 := hr.ne'
    have hr1 : (0 : ℝ) < 1 + 1 / r := by
      have := one_div_pos.mpr hr
      linarith
    have hr2 : (0 : ℝ) < 1 + r := by linarith
    simp only [two_prop_n1_raw]
    rw [abs_sub_comm p2 p1]
    rw [show (p2 + 1 / r * p1) / (1 + 1 / r) = (p1 + r * p2) / (1 + r) by
      rw [div_eq_div_iff hr1.ne' hr2.ne']
      field_simp
      ring]
    rw [one_div_one_div, div_div_eq_mul_div, div_one]
    rw [show (p1 + r * p2) / (1 + r) * (1 - (p1 + r * p2) / (1 + r)) * (1 + r)
        = r * ((p1 + r * p2) / (1 + r) * (1 - (p1 + r * p2) / (1 + r)) * (1 + 1 / r)) by
      field_simp
      ring]
    rw [show p2 * (1 - p2) + p1 * (1 - p1) * r = r * (p1 * (1 - p1) + p2 * (1 - p2) / r) by
      field_simp
      ring]
    rw [sqrt_scale hr.le]
  · by_cases h1 : p1 ≤ 0 ∨ p1 ≥ 1
    · by_cases h2 : p2 ≤ 0 ∨ p2 ≥ 1
      · simp only [calculate_two_proportions, validate_proportion_err h1,
          validate_proportion_err h2]
        rfl
      · push_neg at h2
        simp only [calculate_two_proportions, validate_proportion_err h1,
          validate_proportion_ok h2.1 h2.2]
        rfl
    · push_neg at h1
      by_cases h2 : p2 ≤ 0 ∨ p2 ≥ 1
      · simp only [calculate_two_proportions, validate_proportion_err h2,
          validate_proportion_ok h1.1 h1.2]
        rfl
      · push_neg at h2
        simp only [calculate_two_proportions, validate_proportion_ok h1.1 h1.2,
          validate_proportion_ok h2.1 h2.2, validate_positive_ok _ (one_pos : (0:ℝ) < 1)]
        by_cases hd : |p1 - p2| = 0
        · rw [if_pos (by rw [abs_sub_comm]; exact hd), if_pos hd]
          rfl
        · rw [if_neg (by rw [abs_sub_comm]; exact hd), if_neg hd]
          rw [two_prop_n1_raw_swap_one (z_alpha ppf alpha ts) (z_beta ppf power) p1 p2]
          rw [ceil_one_mul]
          cases adjust_for_dropout
              (ceil_int (two_prop_n1_raw (z_alpha ppf alpha ts) (z_beta ppf power) p1 p2 1))
              dr with
          | error e => rfl
          | ok a => rfl

/-- Witness for C4 (amended) at `p1 = 3/5`, `p2 = 2/5`, `r = 2`. -/
theorem two_prop_swap_symmetry_witness :
    two_prop_n1_raw 1 0 (2 / 5) (3 / 5) (1 / 2) = 2 * two_prop_n1_raw 1 0 (3 / 5) (2 / 5) 2
    ∧ calculate_two_proportions (fun _ => 1) (1 / 20) (4 / 5) (2 / 5) (3 / 5) 1 true 0
        = Except.map swap_groups
            (calculate_two_proportions (fun _ => 1) (1 / 20) (4 / 5) (3 / 5) (2 / 5) 1 true 0) :=
  two_prop_swap_symmetry (fun _ => 1) (1 / 20) (4 / 5) (3 / 5) (2 / 5) 0 1 0 2 true
    (by norm_num)

lemma two_prop_raw_eval_orig :
    two_prop_n1_raw 1 0 (3 / 5) (2 / 5) 2 = 28 / 3 := by
  simp only [two_prop_n1_raw]
  rw [show ((3 : ℝ) / 5 + 2 * (2 / 5)) / (1 + 2) * (1 - (3 / 5 + 2 * (2 / 5)) / (1 + 2))
      * (1 + 1 / 2) = 28 / 75 by norm_num]
  rw [show |(3 : ℝ) / 5 - 2 / 5| = 1 / 5 by
    rw [show (3 : ℝ) / 5 - 2 / 5 = 1 / 5 by norm_num]
    exact abs_of_pos (by norm_num)]
  rw [one_mul, zero_mul, add_zero, Real.sq_sqrt (by norm_num : (0 : ℝ) ≤ 28 / 75)]
  norm_num

lemma two_prop_raw_eval_swapped :
    two_prop_n1_raw 1 0 (2 / 5) (3 / 5) (1 / 2) = 56 / 3 := by
  simp only [two_prop_n1_raw]
  rw [show ((2 : ℝ) / 5 + 1 / 2 * (3 / 5)) / (1 + 1 / 2)
      * (1 - (2 / 5 + 1 / 2 * (3 / 5)) / (1 + 1 / 2)) * (1 + 1 / (1 / 2)) = 56 / 75 by norm_num]
  rw [show |(2 : ℝ) / 5 - 3 / 5| = 1 / 5 by
    rw [show (2 : ℝ) / 5 - 3 / 5 = -(1 / 5) by norm_num, abs_neg]
    exact abs_of_pos (by norm_num)]
  rw [one_mul, zero_mul, add_zero, Real.sq_sqrt (by norm_num : (0 : ℝ) ≤ 56 / 75)]
  norm_num

lemma step_ppf_z_alpha :
    z_alpha (fun x => if x < (3 / 4 : ℝ) then 0 else 1) (1 / 20) true = 1 := by
  simp only [z_alpha]
  norm_num

lemma step_ppf_z_beta :
    z_beta (fun x => if x < (3 / 4 : ℝ) then 0 else 1) (1 / 2) = 0 := by
  simp only [z_beta]
  norm_num

lemma ceil_int_28_3 : ceil_int ((28 : ℝ) / 3) = 10 := by
  unfold ceil_int
  rw [Int.ceil_eq_iff]
  constructor <;> norm_num

lemma ceil_int_56_3 : ceil_int ((56 : ℝ) / 3) = 19 := by
  unfold ceil_int
  rw [Int.ceil_eq_iff]
  constructor <;> norm_num

/-- Claim C4 (counterexample): with the standard-normal quantile instantiated so
that `Z_alpha = 1` and `Z_beta = 0` (target power one half), proportions
`p1 = 3/5`, `p2 = 2/5` and allocation ratio `r = 2`, the original call
returns `n_group2 = 20`, but the swapped call `(p2, p1, 1/r)` returns
`n_group1 = 19`: the claimed swap symmetry of the integer outputs fails. -/
theorem two_prop_swap_counterexample :
    Except.map (fun res => res.n_group2)
        (calculate_two_proportions (fun x => if x < (3 / 4 : ℝ) then 0 else 1)
          (1 / 20) (1 / 2) (3 / 5) (2 / 5) 2 true 0)
      = Except.ok 20
    ∧ Except.map (fun res => res.n_group1)
        (calculate_two_proportions (fun x => if x < (3 / 4 : ℝ) then 0 else 1)
          (1 / 20) (1 / 2) (2 / 5) (3 / 5) (1 / 2) true 0)
      = Except.ok 19
    ∧ (20 : ℤ) ≠ 19 := by
  refine ⟨?_, ?_, by norm_num⟩
  · rw [two_prop_ok _ _ _ _ (by norm_num) (by norm_num) (by norm_num) (by norm_num)
      (by norm_num) (by norm_num) (by norm_num) (by norm_num)]
    simp only [Except.map, step_ppf_z_alpha, step_ppf_z_beta, two_prop_raw_eval_orig,
      ceil_int_28_3]
    rw [show (2 : ℝ) * ((10 : ℤ) : ℝ) = ((20 : ℤ) : ℝ) by push_cast; norm_num]
    rw [show ceil_int (((20 : ℤ) : ℝ)) = 20 from Int.ceil_intCast 20]
    rw [show (((20 : ℤ) : ℝ)) / (1 - 0) = ((20 : ℤ) : ℝ) by norm_num]
    rw [show ceil_int (((20 : ℤ) : ℝ)) = 20 from Int.ceil_intCast 20]
  · rw [two_prop_ok _ _ _ _ (by norm_num) (by norm_num) (by norm_num) (by norm_num)
      (by norm_num) (by norm_num) (by norm_num) (by norm_num)]
    simp only [Except.map, step_ppf_z_alpha, step_ppf_z_beta, two_prop_raw_eval_swapped,
      ceil_int_56_3]
    rw [show (((19 : ℤ) : ℝ)) / (1 - 0) = ((19 : ℤ) : ℝ) by norm_num]
    rw [show ceil_int (((19 : ℤ) : ℝ)) = 19 from Int.ceil_intCast 19]

/-!
Section: closed-form calculators (one-sample mean, correlation, log-rank)
-/

/-- Result shape shared by `one_sample_mean.py` and `correlation.py`. -/
structure PlanResult where
  n_required : ℤ
  n_before_dropout : ℤ
  formula : String
  assumptions : List String

/-- Embeds `calculators/continuous/one_sample_mean.py`
`calculate_one_sample_mean`. -/
noncomputable def calculate_one_sample_mean (ppf : ℝ → ℝ)
    (alpha power sd delta : ℝ) (two_sided : Bool) (dropout_rate : ℝ) :
    Except String PlanResult :=
  match validate_positive sd ("Standard deviation") with
  | Except.error e => Except.error e
  | Except.ok _ =>
  match validate_positive delta ("Mean difference") with
  | Except.error e => Except.error e
  | Except.ok _ =>
    let n_raw := ((z_alpha ppf alpha two_sided + z_beta ppf power) * sd / delta) ^ 2
    let n_ceiled := ceil_int n_raw
    match adjust_for_dropout n_ceiled dropout_rate with
    | Except.error e => Except.error e
    | Except.ok n_final =>
      Except.ok {
        n_required := n_final
        n_before_dropout := n_ceiled
        formula := "n = ((Z_alpha + Z_beta) * sd / delta)^2"
        assumptions := ["Outcome approximately normally distributed",
          "Known or estimated SD from literature or pilot",
          "Two-sided or one-sided test specified"] }

/-- Embeds `calculators/association/correlation.py` `calculate_correlation`.
The source computes `n_raw = (Z_alpha + Z_beta)^2 / z^2 + 3` in floating
point: when `z = 0` (exactly the case `r = 0` inside the validated range) the
division by `z ^ 2 = 0.0` yields a non-finite float and the subsequent
`math.ceil` raises, so the zero-denominator path is embedded as an explicit
error branch. -/
noncomputable def calculate_correlation (ppf : ℝ → ℝ)
    (alpha power r : ℝ) (two_sided : Bool) (dropout_rate : ℝ) :
    Except String PlanResult :=
  if r ≤ -0.99 ∨ r ≥ 0.99 then
    Except.error ("Correlation must be between -0.99 and 0.99.")
  else
    let z := 0.5 * Real.log ((1 + r) / (1 - r))
    if z ^ 2 = 0 then Except.error ("cannot convert float infinity to integer")
    else
      let n_raw := (z_alpha ppf alpha two_sided + z_beta ppf power) ^ 2 / z ^ 2 + 3
      let n_ceiled := ceil_int n_raw
      match adjust_for_dropout n_ceiled dropout_rate with
      | Except.error e => Except.error e
      | Except.ok n_final =>
        Except.ok {
          n_required := n_final
          n_before_dropout := n_ceiled
          formula := "Fisher z-transformation method"
          assumptions := ["Bivariate normal distribution",
            "Testing H0: rho = 0", "Large-sample approximation"] }

/-- Result shape of `calculators/survival/logrank.py`. -/
structure LogrankResult where
  n_total : ℤ
  n_group1 : ℤ
  n_group2 : ℤ
  required_events : ℤ
  n_before_dropout : ℤ
  formula : String
  assumptions : List String

/-- Embeds `calculators/survival/logrank.py` `calculate_logrank`.  When
`hazard_ratio = 1` the denominator `log(HR)^2 · p1 · p2` is zero: in the
source the floating-point division then produces a non-finite value and the
subsequent ceiling raises, so that path is embedded as an explicit error
branch. -/
noncomputable def calculate_logrank (ppf : ℝ → ℝ)
    (alpha power hazard_ratio allocation_ratio event_fraction : ℝ)
    (two_sided : Bool) (dropout_rate : ℝ) : Except String LogrankResult :=
  match validate_positive hazard_ratio ("Hazard ratio") with
  | Except.error e => Except.error e
  | Except.ok _ =>
  match validate_positive allocation_ratio ("Allocation ratio") with
  | Except.error e => Except.error e
  | Except.ok _ =>
  match validate_positive event_fraction ("Event fraction") with
  | Except.error e => Except.error e
  | Except.ok _ =>
  if event_fraction ≥ 1 then Except.error ("Event fraction must be less than 1.")
  else
    let p1 := 1 / (1 + allocation_ratio)
    let p2 := allocation_ratio / (1 + allocation_ratio)
    if Real.log hazard_ratio ^ 2 * p1 * p2 = 0 then
      Except.error ("cannot convert float infinity to integer")
    else
      let D := ceil_int (((z_alpha ppf alpha two_sided + z_beta ppf power) ^ 2)
        / (Real.log hazard_ratio ^ 2 * p1 * p2))
      let N := ceil_int ((D : ℝ) / event_fraction)
      match adjust_for_dropout N dropout_rate with
      | Except.error e => Except.error e
      | Except.ok N_final =>
        let n1 := ceil_int ((N_final : ℝ) * p1)
        let n2 := ceil_int ((N_final : ℝ) * p2)
        Except.ok {
          n_total := n1 + n2
          n_group1 := n1
          n_group2 := n2
          required_events := D
          n_before_dropout := N
          formula := "Freedman log-rank events-based formula"
          assumptions := ["Proportional hazards assumption", "Log-rank test",
            "Event fraction estimated accurately"] }

lemma logrank_split_ge (Nf : ℤ) (ar : ℝ) (har : 0 < ar) :
    Nf ≤ ceil_int ((Nf : ℝ) * (1 / (1 + ar))) + ceil_int ((Nf : ℝ) * (ar / (1 + ar))) := by
  have hden : (0 : ℝ) < 1 + ar := by linarith
  have h1 : ((Nf : ℝ) * (1 / (1 + ar))) ≤ (ceil_int ((Nf : ℝ) * (1 / (1 + ar))) : ℝ) :=
    Int.le_ceil _
  have h2 : ((Nf : ℝ) * (ar / (1 + ar))) ≤ (ceil_int ((Nf : ℝ) * (ar / (1 + ar))) : ℝ) :=
    Int.le_ceil _
  have hsum : (Nf : ℝ) = (Nf : ℝ) * (1 / (1 + ar)) + (Nf : ℝ) * (ar / (1 + ar)) := by
    rw [← mul_add, show 1 / (1 + ar) + ar / (1 + ar) = 1 by field_simp, mul_one]
  have hcast : (Nf : ℝ) ≤ ((ceil_int ((Nf : ℝ) * (1 / (1 + ar)))
      + ceil_int ((Nf : ℝ) * (ar / (1 + ar))) : ℤ) : ℝ) := by
    push_cast
    calc (Nf : ℝ) = (Nf : ℝ) * (1 / (1 + ar)) + (Nf : ℝ) * (ar / (1 + ar)) := hsum
      _ ≤ (ceil_int ((Nf : ℝ) * (1 / (1 + ar))) : ℝ)
          + (ceil_int ((Nf : ℝ) * (ar / (1 + ar))) : ℝ) := add_le_add h1 h2
  exact_mod_cast hcast

/-- Claim C7: every successful result of the cited calculators carries positive
integer sample sizes (each a ceiling of the raw real-valued formula output),
and the after-dropout size is at least the before-dropout size — dropout
adjustment only inflates.  The positivity hypothesis on the Z sum encodes the
standard-normal quantile's behaviour on the valid alpha/power domain. -/
theorem results_positive_and_inflated (ppf : ℝ → ℝ)
    (alpha power sd delta hr ar ef dr : ℝ) (ts : Bool)
    (hz : 0 < z_alpha ppf alpha ts + z_beta ppf power)
    (hd0 : 0 ≤ dr) (hd1 : dr < 0.95) :
    (0 < sd → 0 < delta →
      ∃ res : PlanResult, calculate_one_sample_mean ppf alpha power sd delta ts dr
          = Except.ok res
        ∧ 0 < res.n_before_dropout ∧ res.n_before_dropout ≤ res.n_required)
    ∧ (0 < hr → hr ≠ 1 → 0 < ar → 0 < ef → ef < 1 →
      ∃ res : LogrankResult, calculate_logrank ppf alpha power hr ar ef ts dr
          = Except.ok res
        ∧ 0 < res.n_before_dropout ∧ 0 < res.n_total
        ∧ res.n_before_dropout ≤ res.n_total) := by
  constructor
  · intro hsd hdelta
    have hbase : 0 < (z_alpha ppf alpha ts + z_beta ppf power) * sd / delta :=
      div_pos (mul_pos hz hsd) hdelta
    have hraw : 0 < ((z_alpha ppf alpha ts + z_beta ppf power) * sd / delta) ^ 2 :=
      pow_pos hbase 2
    have hceil : 0 < ceil_int (((z_alpha ppf alpha ts + z_beta ppf power) * sd / delta) ^ 2) :=
      Int.ceil_pos.mpr hraw
    simp only [calculate_one_sample_mean, validate_positive_ok _ hsd,
      validate_positive_ok _ hdelta, adjust_for_dropout_ok _ hd0 hd1]
    exact ⟨_, rfl, hceil, le_ceil_div_one_sub _ hceil.le hd0 hd1⟩
  · intro hhr hne har hef hef1
    have hlog : Real.log hr ≠ 0 := by
      intro h
      rcases Real.log_eq_zero.mp h with h0 | h0 | h0 <;> simp [h0] at hhr hne
      linarith
    have hden1 : (0 : ℝ) < 1 + ar := by linarith
    have hp1 : (0 : ℝ) < 1 / (1 + ar) := by positivity
    have hp2 : (0 : ℝ) < ar / (1 + ar) := div_pos har hden1
    have hlog2 : 0 < Real.log hr ^ 2 := pow_two_pos_of_ne_zero hlog
    have hden : 0 < Real.log hr ^ 2 * (1 / (1 + ar)) * (ar / (1 + ar)) :=
      mul_pos (mul_pos hlog2 hp1) hp2
    have hDraw : 0 < (z_alpha ppf alpha ts + z_beta ppf power) ^ 2
        / (Real.log hr ^ 2 * (1 / (1 + ar)) * (ar / (1 + ar))) :=
      div_pos (pow_pos hz 2) hden
    have hD : 0 < ceil_int ((z_alpha ppf alpha ts + z_beta ppf power) ^ 2
        / (Real.log hr ^ 2 * (1 / (1 + ar)) * (ar / (1 + ar)))) :=
      Int.ceil_pos.mpr hDraw
    have hNraw : 0 < ((ceil_int ((z_alpha ppf alpha ts + z_beta ppf power) ^ 2
        / (Real.log hr ^ 2 * (1 / (1 + ar)) * (ar / (1 + ar))))  : ℝ)) / ef :=
      div_pos (by exact_mod_cast hD) hef
    have hN : 0 < ceil_int (((ceil_int ((z_alpha ppf alpha ts + z_beta ppf power) ^ 2
        / (Real.log hr ^ 2 * (1 / (1 + ar)) * (ar / (1 + ar))))  : ℝ)) / ef) :=
      Int.ceil_pos.mpr hNraw
    simp only [calculate_logrank, validate_positive_ok _ hhr, validate_positive_ok _ har,
      validate_positive_ok _ hef, if_neg (not_le.mpr hef1), if_neg hden.ne',
      adjust_for_dropout_ok _ hd0 hd1]
    refine ⟨_, rfl, hN, ?_, ?_⟩
    · exact lt_of_lt_of_le (lt_of_lt_of_le hN (le_ceil_div_one_sub _ hN.le hd0 hd1))
        (logrank_split_ge _ ar har)
    · exact le_trans (le_ceil_div_one_sub _ hN.le hd0 hd1) (logrank_split_ge _ ar har)

/-- Witness for C7 at the spec's concrete scenarios (one-sample mean with
`SD = 15`, `Δ = 10`; log-rank with `HR = 0.7`, ratio 1, event fraction 1/2). -/
theorem results_positive_and_inflated_witness :
    ((0 : ℝ) < 15 → (0 : ℝ) < 10 →
      ∃ res : PlanResult, calculate_one_sample_mean (fun _ => 1) (1 / 20) (4 / 5) 15 10 true 0
          = Except.ok res
        ∧ 0 < res.n_before_dropout ∧ res.n_before_dropout ≤ res.n_required)
    ∧ ((0 : ℝ) < 7 / 10 → (7 / 10 : ℝ) ≠ 1 → (0 : ℝ) < 1 → (0 : ℝ) < 1 / 2 → (1 / 2 : ℝ) < 1 →
      ∃ res : LogrankResult, calculate_logrank (fun _ => 1) (1 / 20) (4 / 5) (7 / 10) 1 (1 / 2)
          true 0 = Except.ok res
        ∧ 0 < res.n_before_dropout ∧ 0 < res.n_total
        ∧ res.n_before_dropout ≤ res.n_total) :=
  results_positive_and_inflated (fun _ => 1) (1 / 20) (4 / 5) 15 10 (7 / 10) 1 (1 / 2) 0 true
    (by simp [z_alpha, z_beta]) (le_refl 0) (by norm_num)

lemma ceil_int_intCast (n : ℤ) : ceil_int ((n : ℝ)) = n := by
  unfold ceil_int
  exact Int.ceil_intCast n

/-- Claim C8: given a valid dropout rate, the correlation calculator fails
exactly when `r = 0` (the Fisher z denominator vanishes, so the source's
float division blows up and the ceiling raises) or `|r| ≥ 0.99` (explicit
range check), and returns a result for every other `r` in `(-0.99, 0.99)`. -/
theorem correlation_domain (ppf : ℝ → ℝ) (alpha power r dr : ℝ) (ts : Bool)
    (hd0 : 0 ≤ dr) (hd1 : dr < 0.95) :
    ((r = 0 ∨ (0.99 : ℝ) ≤ |r|) →
      ∃ e, calculate_correlation ppf alpha power r ts dr = Except.error e)
    ∧ (r ≠ 0 → |r| < 0.99 →
      ∃ res, calculate_correlation ppf alpha power r ts dr = Except.ok res) := by
  constructor
  · rintro (rfl | habs)
    · refine ⟨"cannot convert float infinity to integer", ?_⟩
      simp only [calculate_correlation]
      rw [if_neg (by norm_num), if_pos (by
        rw [show ((1 : ℝ) + 0) / (1 - 0) = 1 by norm_num, Real.log_one]
        norm_num)]
    · have hcond : r ≤ -0.99 ∨ r ≥ 0.99 := by
        rcases le_abs.mp habs with h | h
        · right
          exact h
        · left
          linarith
      refine ⟨"Correlation must be between -0.99 and 0.99.", ?_⟩
      simp only [calculate_correlation]
      rw [if_pos hcond]
  · intro hne habs
    have hb := abs_lt.mp habs
    have hcond : ¬ (r ≤ -0.99 ∨ r ≥ 0.99) := by
      push_neg
      exact ⟨hb.1, hb.2⟩
    have h1r : (0 : ℝ) < 1 + r := by linarith [hb.1]
    have h2r : (0 : ℝ) < 1 - r := by linarith [hb.2]
    have hratio : (0 : ℝ) < (1 + r) / (1 - r) := div_pos h1r h2r
    have hlogne : Real.log ((1 + r) / (1 - r)) ≠ 0 := by
      have hne1 : (1 + r) / (1 - r) ≠ 1 := by
        intro h
        rw [div_eq_one_iff_eq h2r.ne'] at h
        apply hne
        linarith
      rcases lt_trichotomy ((1 + r) / (1 - r)) 1 with h | h | h
      · exact (Real.log_neg hratio h).ne
      · exact absurd h hne1
      · exact (Real.log_pos h).ne'
    have hzne : (0.5 * Real.log ((1 + r) / (1 - r))) ^ 2 ≠ 0 :=
      pow_ne_zero 2 (mul_ne_zero (by norm_num) hlogne)
    simp only [calculate_correlation]
    rw [if_neg hcond, if_neg hzne]
    simp only [adjust_for_dropout_ok _ hd0 hd1]
    exact ⟨_, rfl⟩

/-- Witness for C8: at the spec scenario the calculator errors at `r = 0` and
succeeds at `r = 0.30`. -/
theorem correlation_domain_witness :
    (∃ e, calculate_correlation (fun _ => 1) (1 / 20) (4 / 5) 0 true 0 = Except.error e)
    ∧ (∃ res, calculate_correlation (fun _ => 1) (1 / 20) (4 / 5) (3 / 10) true 0
        = Except.ok res) :=
  ⟨(correlation_domain (fun _ => 1) (1 / 20) (4 / 5) 0 0 true (le_refl 0) (by norm_num)).1
      (Or.inl rfl),
    (correlation_domain (fun _ => 1) (1 / 20) (4 / 5) (3 / 10) 0 true (le_refl 0)
      (by norm_num)).2 (by norm_num)
      (by rw [show |(3 : ℝ) / 10| = 3 / 10 from abs_of_pos (by norm_num)]; norm_num)⟩

/-- Claim C9 (counterexample): with `alpha = 1/2`, far outside the documented
domain `(0, 0.2]`, and all other inputs valid, the one-sample-mean calculator
does not reject: it returns a full planning result (with the quantile
primitive constantly 1, `n = ((1 + 1) · 15 / 10)² = 9`). -/
theorem alpha_not_validated_counterexample :
    calculate_one_sample_mean (fun _ => 1) (1 / 2) (4 / 5) 15 10 true 0
      = Except.ok {
          n_required := 9
          n_before_dropout := 9
          formula := "n = ((Z_alpha + Z_beta) * sd / delta)^2"
          assumptions := ["Outcome approximately normally distributed",
            "Known or estimated SD from literature or pilot",
            "Two-sided or one-sided test specified"] }
    ∧ ¬ ((1 / 2 : ℝ) ≤ 1 / 5) := by
  constructor
  · simp only [calculate_one_sample_mean,
      validate_positive_ok _ (by norm_num : (0 : ℝ) < 15),
      validate_positive_ok _ (by norm_num : (0 : ℝ) < 10),
      adjust_for_dropout_ok _ (le_refl (0 : ℝ)) (by norm_num)]
    rw [show ((z_alpha (fun _ => 1) (1 / 2) true + z_beta (fun _ => 1) (4 / 5)) * 15 / 10) ^ 2
        = ((9 : ℤ) : ℝ) by simp [z_alpha, z_beta]; norm_num]
    rw [ceil_int_intCast]
    rw [show (((9 : ℤ) : ℝ)) / (1 - 0) = ((9 : ℤ) : ℝ) by norm_num]
    rw [ceil_int_intCast]
  · norm_num

/-- Claim C9 (amended): no calculator validates alpha: for every alpha in
`(0.2, 1)` — outside the documented domain `(0, 0.2]`, but inside the region
where the normal quantile is still finite — with all other inputs valid
(power in `[0.5, 0.99]`), the calculators return a full planning result
rather than failing with an out-of-range error (shown for the
one-sample-mean and two-proportions calculators).  Alphas where the real
quantile is non-finite (such as 0, or 2 and beyond two-sided) still fail in
the source, but with a float-conversion error from the arithmetic, never
with the claimed eager out-of-range validation; the range hypotheses below
keep this statement inside the finite-quantile region. -/
theorem alpha_not_validated (ppf : ℝ → ℝ) (alpha power sd delta p1 p2 r dr : ℝ) (ts : Bool)
    (_hout1 : 1 / 5 < alpha) (_hout2 : alpha < 1)
    (_hpw1 : 1 / 2 ≤ power) (_hpw2 : power ≤ 99 / 100)
    (hsd : 0 < sd) (hdelta : 0 < delta)
    (h1a : 0 < p1) (h1b : p1 < 1) (h2a : 0 < p2) (h2b : p2 < 1) (hr : 0 < r)
    (hne : p1 ≠ p2) (hd0 : 0 ≤ dr) (hd1 : dr < 0.95) :
    (∃ res, calculate_one_sample_mean ppf alpha power sd delta ts dr = Except.ok res)
    ∧ (∃ res, calculate_two_proportions ppf alpha power p1 p2 r ts dr = Except.ok res) := by
  constructor
  · simp only [calculate_one_sample_mean, validate_positive_ok _ hsd,
      validate_positive_ok _ hdelta, adjust_for_dropout_ok _ hd0 hd1]
    exact ⟨_, rfl⟩
  · rw [two_prop_ok ppf alpha power ts h1a h1b h2a h2b hr hne hd0 hd1]
    exact ⟨_, rfl⟩

/-- Witness for C9 (amended) at `alpha = 1/2`. -/
theorem alpha_not_validated_witness :
    (∃ res, calculate_one_sample_mean (fun _ => 1) (1 / 2) (4 / 5) 15 10 true 0
        = Except.ok res)
    ∧ (∃ res, calculate_two_proportions (fun _ => 1) (1 / 2) (4 / 5) (3 / 5) (2 / 5) 1 true 0
        = Except.ok res) :=
  alpha_not_validated (fun _ => 1) (1 / 2) (4 / 5) 15 10 (3 / 5) (2 / 5) 1 0 true
    (by norm_num) (by norm_num) (by norm_num) (by norm_num) (by norm_num) (by norm_num)
    (by norm_num) (by norm_num) (by norm_num) (by norm_num) (by norm_num) (by norm_num)
    (le_refl 0) (by norm_num)

end ClinSample
